import Mathlib

/-!
Verification of the HRML editor core (`src/web/js/core/Editor.js`).

The document content is modelled as `List Char` (a JS string is a sequence
of code units; the markers involved are ASCII, so `Char` is faithful here).
JS `String.prototype.slice(s, e)` with non-negative arguments clamps the
bounds to the string length and returns `""` when `s >= e`; this is exactly
`(l.take e).drop s`.  The indexing `text[i]` yields `undefined` out of range,
so the comparison `text[i] !== "\n"` is modelled as `l.get? i ≠ some '\n'`.
Selection offsets reported by a textarea are unsigned (`Nat`).
-/

abbrev Str := List Char

/-- Models `prefix.match(/^(jf+|ja|jl|kl)/)` — the match succeeds iff the
string starts with `jf` (the `f+` needs at least one `f`), `ja`, `jl` or
`kl`. -/
def isBlockLevel (p : Str) : Bool :=
  p.take 2 = ['j', 'f'] || p.take 2 = ['j', 'a'] ||
  p.take 2 = ['j', 'l'] || p.take 2 = ['k', 'l']

/-- Models `ensureNewline && start > 0 && text[start-1] !== "\n" && isBlockLevel ? "\n" : ""`. -/
def prependNewline (ensureNL : Bool) (text : Str) (start : Nat) (p : Str) : Str :=
  if ensureNL && decide (start > 0) && decide (text.get? (start - 1) ≠ some '\n')
      && isBlockLevel p then ['\n'] else []

/-- Models `ensureNewline && !suffix.endsWith("\n") && isBlockLevel ? "\n" : ""`. -/
def appendNewline (ensureNL : Bool) (suf : Str) (p : Str) : Str :=
  if ensureNL && !(suf.getLast? = some '\n') && isBlockLevel p then ['\n'] else []

/-- Models `const selectedText = text.slice(start, end)`. -/
def selectedText (text : Str) (start endPos : Nat) : Str :=
  (text.take endPos).drop start

/-- Result of `Editor.insertMarkup`: the new textarea value and the argument
passed (twice) to `setSelectionRange`. -/
structure InsertResult where
  text : Str
  caret : Nat
  deriving Repr, DecidableEq

/-- Models `Editor.insertMarkup(prefix, suffix = "", ensureNewline = true)`
reading `text`, `selectionStart = start`, `selectionEnd = endPos` from the
textarea.  The new value is
`text.slice(0,start) + prependNewline + prefix + (selectedText || "") + suffix + appendNewline + text.slice(end)`
(`(selectedText || "")` is the same string: `""` is falsy but `|| ""`
restores it) and the new position is
`start + prependNewline.length + prefix.length + (selectedText || "").length + (suffix ? suffix.length : 0)`
(`(suffix ? suffix.length : 0)` equals `suffix.length` since `"".length = 0`). -/
def insertMarkup (text : Str) (start endPos : Nat) (p suf : Str) (ensureNL : Bool) :
    InsertResult :=
  ⟨text.take start
     ++ prependNewline ensureNL text start p
     ++ p
     ++ selectedText text start endPos
     ++ suf
     ++ appendNewline ensureNL suf p
     ++ text.drop endPos,
   start + (prependNewline ensureNL text start p).length + p.length
     + (selectedText text start endPos).length + suf.length⟩

/-- Models `this.editor.setSelectionRange(newPosition, newPosition)`: the pair
of arguments sets a collapsed range. -/
def resultingSelection (r : InsertResult) : Nat × Nat := (r.caret, r.caret)

/-- Render outcome: the preview either shows the transformed HTML or an error
block built from the caught error's message. -/
inductive RenderResult where
  | rendered (html : Str)
  | failed (message : Str)
  deriving Repr, DecidableEq

/-- Models `Editor.updatePreview`: sanitize the textarea value, run the parser
(`this.parser.parseToHtml`), and map success / thrown error to a
`RenderResult`.  `sanitizeInput` and the transform are external collaborators,
taken as parameters; a transform that throws is an `Except.error` carrying
`error.message`. -/
def updatePreview (sanitizeInput : Str → Str) (parseToHtml : Str → Except Str Str)
    (value : Str) : RenderResult :=
  match parseToHtml (sanitizeInput value) with
  | Except.ok html => RenderResult.rendered html
  | Except.error msg => RenderResult.failed msg

/-- What `updatePreview` writes into `preview.innerHTML`: the HTML on success,
`<pre class="error">Error: ${error.message}</pre>` on failure. -/
def previewDisplay : RenderResult → Str
  | RenderResult.rendered html => html
  | RenderResult.failed msg =>
      "<pre class=\"error\">Error: ".toList ++ msg ++ "</pre>".toList

/-- The observable editor state touched by the toolbar dispatch: the textarea
value and selection, the persisted content (`state.saveContent`) and the
preview surface. -/
structure EditorState where
  text : Str
  selStart : Nat
  selEnd : Nat
  saved : Str
  preview : RenderResult
  deriving Repr, DecidableEq

/-- The tail of `Editor.insertMarkup`: write the new value back, persist it
(`state.saveContent`), rerender the preview, and collapse the selection at
`newPosition`. -/
def applyInsert (san : Str → Str) (parse : Str → Except Str Str)
    (st : EditorState) (p suf : Str) (ensureNL : Bool) : EditorState :=
  { text := (insertMarkup st.text st.selStart st.selEnd p suf ensureNL).text
    selStart := (resultingSelection (insertMarkup st.text st.selStart st.selEnd p suf ensureNL)).1
    selEnd := (resultingSelection (insertMarkup st.text st.selStart st.selEnd p suf ensureNL)).2
    saved := (insertMarkup st.text st.selStart st.selEnd p suf ensureNL).text
    preview := updatePreview san parse (insertMarkup st.text st.selStart st.selEnd p suf ensureNL).text }

/-- Models `Editor.insertHorizontalRule()`. -/
def insertHorizontalRule (san : Str → Str) (parse : Str → Except Str Str)
    (st : EditorState) : EditorState :=
  applyInsert san parse st "js".toList "\n".toList true

/-- Models `Editor.insertLink()` (`ensureNewline` defaults to `true`). -/
def insertLink (san : Str → Str) (parse : Str → Except Str Str)
    (st : EditorState) : EditorState :=
  applyInsert san parse st "jg [text] gh [url] hg".toList "\n".toList true

/-- Models `Editor.insertImage()`. -/
def insertImage (san : Str → Str) (parse : Str → Except Str Str)
    (st : EditorState) : EditorState :=
  applyInsert san parse st "jh [alt] gh [url] hj".toList "\n".toList true

/-- Models `Editor.insertCodeBlock()`. -/
def insertCodeBlock (san : Str → Str) (parse : Str → Except Str Str)
    (st : EditorState) : EditorState :=
  applyInsert san parse st "jkd python\n".toList "\ndkj".toList true

/-- Models `Editor.insertQuote()`. -/
def insertQuote (san : Str → Str) (parse : Str → Except Str Str)
    (st : EditorState) : EditorState :=
  applyInsert san parse st "kl ".toList "\n".toList true

/-- Models `Editor.insertNestedQuote()`. -/
def insertNestedQuote (san : Str → Str) (parse : Str → Except Str Str)
    (st : EditorState) : EditorState :=
  applyInsert san parse st "kll ".toList "\n".toList true

/-- The closed set of toolbar action tags handled by the `switch` in
`Editor.bindEvents`. -/
def knownToolbarActions : List String :=
  ["h1", "h2", "h3", "bold", "italic", "underline", "ulist", "olist",
   "link", "image", "code", "quote", "nested-quote", "hr", "export-pdf"]

/-- Models the toolbar click dispatch (`switch (action)` in
`Editor.bindEvents`), written as the equivalent equality chain.  Returns the
new editor state and the list of console warnings emitted.  `export-pdf` only
drives the external exporter, notifications and a DOM indicator; it leaves the
buffer, selection, persisted content and preview untouched. -/
def dispatchToolbar (san : Str → Str) (parse : Str → Except Str Str)
    (action : String) (st : EditorState) : EditorState × List String :=
  if action = "h1" then (applyInsert san parse st "jf ".toList "\n".toList true, [])
  else if action = "h2" then (applyInsert san parse st "jff ".toList "\n".toList true, [])
  else if action = "h3" then (applyInsert san parse st "jfff ".toList "\n".toList true, [])
  else if action = "bold" then (applyInsert san parse st "js ".toList " sj".toList true, [])
  else if action = "italic" then (applyInsert san parse st "jd ".toList " dj".toList true, [])
  else if action = "underline" then (applyInsert san parse st "ju ".toList " uj".toList true, [])
  else if action = "ulist" then (applyInsert san parse st "ja ".toList "\n".toList true, [])
  else if action = "olist" then (applyInsert san parse st "jl ".toList "\n".toList true, [])
  else if action = "link" then (insertLink san parse st, [])
  else if action = "image" then (insertImage san parse st, [])
  else if action = "code" then (insertCodeBlock san parse st, [])
  else if action = "quote" then (insertQuote san parse st, [])
  else if action = "nested-quote" then (insertNestedQuote san parse st, [])
  else if action = "hr" then (insertHorizontalRule san parse st, [])
  else if action = "export-pdf" then (st, [])
  else (st, ["Unknown toolbar action: " ++ action])

/-- Models the `events.bindShortcuts` callbacks that touch editor state:
Ctrl+B / Ctrl+I / Ctrl+U insert markup with the space-less markers, Ctrl+K and
Ctrl+Q call the link / quote helpers, Ctrl+S persists the current value and
Ctrl+E only drives the exporter. -/
def dispatchShortcut (san : Str → Str) (parse : Str → Except Str Str)
    (key : String) (st : EditorState) : EditorState :=
  if key = "b" then applyInsert san parse st "js".toList "sj".toList true
  else if key = "i" then applyInsert san parse st "jd".toList "dj".toList true
  else if key = "u" then applyInsert san parse st "ju".toList "uj".toList true
  else if key = "k" then insertLink san parse st
  else if key = "q" then insertQuote san parse st
  else if key = "s" then { st with saved := st.text }
  else if key = "e" then st
  else st

/-- Log of collaborator calls made by the `content-changed` handler in the
`Editor` constructor. -/
structure SessionLog where
  saves : List Str
  wordCounts : List Str
  renders : List Str
  deriving Repr, DecidableEq

/-- Models the `content-changed` handler: `state.saveContent(content)`,
`state.updateWordCount(content)`, then `this.updatePreview()` (which reads the
textarea value, equal to the emitted content). -/
def contentChangedHandler (content : Str) (log : SessionLog) : SessionLog :=
  { saves := log.saves ++ [content]
    wordCounts := log.wordCounts ++ [content]
    renders := log.renders ++ [content] }

/-- Models a burst of `input` events: the `input` handler emits
`content-changed` with `e.target.value` synchronously for each event; the
imported `debounce` helper is never applied to this path. -/
def processInputEvents (edits : List Str) (log : SessionLog) : SessionLog :=
  edits.foldl (fun l v => contentChangedHandler v l) log

/-! ## Helper lemmas -/

lemma prependNewline_length_le (ensureNL : Bool) (text : Str) (start : Nat) (p : Str) :
    (prependNewline ensureNL text start p).length ≤ 1 := by
  unfold prependNewline
  split <;> simp

lemma appendNewline_length_le (ensureNL : Bool) (suf p : Str) :
    (appendNewline ensureNL suf p).length ≤ 1 := by
  unfold appendNewline
  split <;> simp

lemma prependNewline_of_not_block (ensureNL : Bool) (text : Str) (start : Nat)
    (p : Str) (h : isBlockLevel p = false) :
    prependNewline ensureNL text start p = [] := by
  unfold prependNewline
  simp [h]

lemma appendNewline_of_not_block (ensureNL : Bool) (suf p : Str)
    (h : isBlockLevel p = false) :
    appendNewline ensureNL suf p = [] := by
  unfold appendNewline
  simp [h]

lemma selectedText_length (text : Str) (s e : Nat) (h1 : s ≤ e) (h2 : e ≤ text.length) :
    (selectedText text s e).length = e - s := by
  simp [selectedText, List.length_drop, List.length_take]
  omega

lemma insertMarkup_text_length (text : Str) (s e : Nat) (p suf : Str) (ensureNL : Bool)
    (h1 : s ≤ e) (h2 : e ≤ text.length) :
    (insertMarkup text s e p suf ensureNL).text.length =
      text.length + (prependNewline ensureNL text s p).length + p.length
        + suf.length + (appendNewline ensureNL suf p).length := by
  simp only [insertMarkup, List.length_append]
  rw [List.length_take_of_le (le_trans h1 h2), List.length_drop,
    selectedText_length text s e h1 h2]
  omega

lemma insertMarkup_caret_eq (text : Str) (s e : Nat) (p suf : Str) (ensureNL : Bool) :
    (insertMarkup text s e p suf ensureNL).caret =
      s + (prependNewline ensureNL text s p).length + p.length
        + (selectedText text s e).length + suf.length := rfl

/-! ## Claims -/

/-- C1: the spec claims that N content-changed events inside the quiet window
coalesce into exactly one render of the last content.  The code wires the
`input` handler straight to `updatePreview` without the imported `debounce`
helper: two edits `"a"`, `"ab"` produce two render calls, the first with the
intermediate content `"a"`, not one render of `"ab"`. -/
theorem C1_every_edit_renders_immediately :
    (processInputEvents ["a".toList, "ab".toList] ⟨[], [], []⟩).renders
        = ["a".toList, "ab".toList]
      ∧ (processInputEvents ["a".toList, "ab".toList] ⟨[], [], []⟩).renders.length = 2
      ∧ (processInputEvents ["a".toList, "ab".toList] ⟨[], [], []⟩).renders
        ≠ ["ab".toList] := by
  refine ⟨rfl, rfl, ?_⟩
  decide

/-- C2 counterexample: the claimed round-trip adds `selectedText.length` on
top of the old content's length, but the selected text is wrapped in place,
not removed, so it is already counted in the old length.  For buffer
`"hello"` with selection `[0,5]` and the bold rule the new content is
`"js hello sj"` of length 11, while the claimed sum is
`5 + 0 + 3 + 5 + 3 + 0 = 16`. -/
theorem C2_length_roundtrip_counterexample :
    ¬ ((insertMarkup "hello".toList 0 5 "js ".toList " sj".toList true).text.length =
        "hello".toList.length
          + (prependNewline true "hello".toList 0 "js ".toList).length
          + "js ".toList.length
          + (selectedText "hello".toList 0 5).length
          + " sj".toList.length
          + (appendNewline true " sj".toList "js ".toList).length) := by
  decide

/-- C2 amended: the new content's length is exactly the old length plus the
lengths of the leading newline (0 or 1), the prefix, the suffix, and the
trailing newline (0 or 1) — the selected text contributes no extra length
because it is already part of the old content. -/
theorem C2_length_roundtrip (text : Str) (s e : Nat) (p suf : Str) (ensureNL : Bool)
    (h1 : s ≤ e) (h2 : e ≤ text.length) :
    (insertMarkup text s e p suf ensureNL).text.length =
        text.length + (prependNewline ensureNL text s p).length + p.length
          + suf.length + (appendNewline ensureNL suf p).length
      ∧ (prependNewline ensureNL text s p).length ≤ 1
      ∧ (appendNewline ensureNL suf p).length ≤ 1 :=
  ⟨insertMarkup_text_length text s e p suf ensureNL h1 h2,
   prependNewline_length_le .., appendNewline_length_le ..⟩

theorem C2_length_roundtrip_witness :
    (insertMarkup "hello".toList 0 5 "js ".toList " sj".toList true).text.length =
        "hello".toList.length
          + (prependNewline true "hello".toList 0 "js ".toList).length
          + "js ".toList.length
          + " sj".toList.length
          + (appendNewline true " sj".toList "js ".toList).length
      ∧ (prependNewline true "hello".toList 0 "js ".toList).length ≤ 1
      ∧ (appendNewline true " sj".toList "js ".toList).length ≤ 1 :=
  C2_length_roundtrip "hello".toList 0 5 "js ".toList " sj".toList true
    (by decide) (by decide)

/-- C3 counterexample: on the empty buffer with selection `[0,0]` and the
heading rule (`"jf "`, `"\n"`, ensureNewline), the code places the caret after
the suffix's own newline, at offset 4 — not at offset 3 as the claim states
(the content `"jf \n"` part is right). -/
theorem C3_scenarioB_counterexample :
    ¬ ((insertMarkup [] 0 0 "jf ".toList "\n".toList true).text = "jf \n".toList
        ∧ (insertMarkup [] 0 0 "jf ".toList "\n".toList true).caret = 3) := by
  decide

/-- C3 amended: Scenario B produces content `"jf \n"` with caret 4
(`0 + 0 + 3 + 0 + 1`): the suffix's own trailing newline is counted in the
caret position; only a separately-appended trailing newline would be excluded,
and none is appended here because the suffix already ends in `"\n"`. -/
theorem C3_scenarioB :
    insertMarkup [] 0 0 "jf ".toList "\n".toList true = ⟨"jf \n".toList, 4⟩ := by
  decide

/-- C4 counterexample: with content `"x\n"` and out-of-range selection
`[3,3]`, the leading-newline check reads `text[2]` (`undefined ≠ "\n"`), so a
block rule prepends a newline that the clamped selection `[2,2]` (which sees
the `'\n'` at index 1) would not: the result reflects the out-of-range value
instead of behaving as if clamped. -/
theorem C4_clamping_counterexample :
    insertMarkup "x\n".toList 3 3 "jf ".toList "\n".toList true
      ≠ insertMarkup "x\n".toList (min 3 "x\n".toList.length)
          (min 3 "x\n".toList.length) "jf ".toList "\n".toList true := by
  decide

/-- C4 amended: only `selectionEnd` is clamped.  For every input, the result
equals that of the selection with `selectionEnd` clamped to the content length
(`slice` clamps its bounds, and a `selectionEnd` below `selectionStart`
already yields an empty selected text either way); but an out-of-range
`selectionStart` is trusted, not clamped: the `text[selectionStart-1]` check
reads past the end and can prepend a newline the clamped selection would not
(see the counterexample). -/
theorem C4_end_clamped (text : Str) (s e : Nat) (p suf : Str) (ensureNL : Bool) :
    insertMarkup text s e p suf ensureNL
      = insertMarkup text s (min e text.length) p suf ensureNL := by
  rcases Nat.le_total e text.length with h | h
  · rw [Nat.min_eq_left h]
  · rw [Nat.min_eq_right h]
    simp only [insertMarkup, selectedText, InsertResult.mk.injEq,
      List.take_of_length_le h, List.take_length,
      List.drop_eq_nil_of_le h, List.drop_length]

/-- C5: a leading newline is prepended iff `ensureNewline` holds, the prefix
is block-level, `selectionStart > 0` and the character before the selection is
not `'\n'`; in particular none at document start and none right after a
newline, and the prepended text is always `"\n"` or empty. -/
theorem C5_leading_newline (ensureNL : Bool) (text : Str) (s : Nat) (p suf : Str) (e : Nat) :
    ((insertMarkup text s e p suf ensureNL).text
        = text.take s ++ prependNewline ensureNL text s p ++ p
            ++ selectedText text s e ++ suf ++ appendNewline ensureNL suf p
            ++ text.drop e)
      ∧ (prependNewline ensureNL text s p = ['\n']
          ↔ ensureNL = true ∧ isBlockLevel p = true ∧ 0 < s
              ∧ text.get? (s - 1) ≠ some '\n')
      ∧ (s = 0 → prependNewline ensureNL text s p = [])
      ∧ (text.get? (s - 1) = some '\n' → prependNewline ensureNL text s p = [])
      ∧ (prependNewline ensureNL text s p = ['\n']
          ∨ prependNewline ensureNL text s p = []) := by
  refine ⟨rfl, ?_, ?_, ?_, ?_⟩ <;>
    · unfold prependNewline
      by_cases hE : ensureNL = true <;> by_cases hB : isBlockLevel p = true <;>
        by_cases hS : 0 < s <;> by_cases hN : text.get? (s - 1) = some '\n' <;>
        simp_all

theorem C5_leading_newline_witness :
    prependNewline true "a".toList 0 "jf ".toList = [] :=
  (C5_leading_newline true "a".toList 0 "jf ".toList [] 0).2.2.1 rfl

/-- C6: for a valid selection, the selection set after `insertMarkup` is a
collapsed range `[c, c]` with `c` at most the new content's length. -/
theorem C6_caret_invariant (text : Str) (s e : Nat) (p suf : Str) (ensureNL : Bool)
    (h1 : s ≤ e) (h2 : e ≤ text.length) :
    (resultingSelection (insertMarkup text s e p suf ensureNL)).1
        = (resultingSelection (insertMarkup text s e p suf ensureNL)).2
      ∧ (resultingSelection (insertMarkup text s e p suf ensureNL)).1
        ≤ (insertMarkup text s e p suf ensureNL).text.length := by
  refine ⟨rfl, ?_⟩
  rw [resultingSelection, insertMarkup_caret_eq,
    insertMarkup_text_length text s e p suf ensureNL h1 h2,
    selectedText_length text s e h1 h2]
  omega

theorem C6_caret_invariant_witness :
    (resultingSelection (insertMarkup "hello".toList 0 5 "js ".toList " sj".toList true)).1
        = (resultingSelection (insertMarkup "hello".toList 0 5 "js ".toList " sj".toList true)).2
      ∧ (resultingSelection (insertMarkup "hello".toList 0 5 "js ".toList " sj".toList true)).1
        ≤ (insertMarkup "hello".toList 0 5 "js ".toList " sj".toList true).text.length :=
  C6_caret_invariant "hello".toList 0 5 "js ".toList " sj".toList true
    (by decide) (by decide)

/-- C7: for every input and every transform behavior, `updatePreview` returns
a `RenderResult` — `rendered html` when the transform succeeds, `failed msg`
carrying the error's message when it throws — and never propagates an
exception (it is a total function into `RenderResult`). -/
theorem C7_render_isolation (san : Str → Str) (parse : Str → Except Str Str) (v : Str) :
    (∀ html, parse (san v) = Except.ok html
        → updatePreview san parse v = RenderResult.rendered html)
      ∧ (∀ msg, parse (san v) = Except.error msg
        → updatePreview san parse v = RenderResult.failed msg)
      ∧ (∃ r : RenderResult, updatePreview san parse v = r) := by
  refine ⟨?_, ?_, ⟨updatePreview san parse v, rfl⟩⟩ <;>
    · intro x hx
      unfold updatePreview
      rw [hx]

theorem C7_render_isolation_witness :
    updatePreview (fun v => v) (fun _ => Except.error "unexpected token".toList)
        "x".toList
      = RenderResult.failed "unexpected token".toList :=
  (C7_render_isolation (fun v => v) (fun _ => Except.error "unexpected token".toList)
    "x".toList).2.1 "unexpected token".toList rfl

/-- C8: for every action tag outside the closed known set, the toolbar
dispatcher logs the unknown tag and leaves the whole editor state (buffer,
selection, persisted content, preview) unchanged. -/
theorem C8_unknown_action (san : Str → Str) (parse : Str → Except Str Str)
    (action : String) (st : EditorState) (h : action ∉ knownToolbarActions) :
    dispatchToolbar san parse action st = (st, ["Unknown toolbar action: " ++ action]) := by
  simp only [knownToolbarActions, List.mem_cons, List.not_mem_nil, or_false,
    not_or] at h
  obtain ⟨h1, h2, h3, h4, h5, h6, h7, h8, h9, h10, h11, h12, h13, h14, h15⟩ := h
  simp [dispatchToolbar, h1, h2, h3, h4, h5, h6, h7, h8, h9, h10, h11, h12, h13, h14, h15]

theorem C8_unknown_action_witness :
    dispatchToolbar (fun v => v) (fun v => Except.ok v) "frobnicate"
        ⟨[], 0, 0, [], RenderResult.rendered []⟩
      = (⟨[], 0, 0, [], RenderResult.rendered []⟩,
         ["Unknown toolbar action: " ++ "frobnicate"]) :=
  C8_unknown_action (fun v => v) (fun v => Except.ok v) "frobnicate"
    ⟨[], 0, 0, [], RenderResult.rendered []⟩ (by decide)

/-- C9: the Ctrl+B / Ctrl+I / Ctrl+U shortcuts insert the space-less markers
while the bold / italic / underline toolbar actions insert the space-padded
ones, so on any buffer with a valid selection the two paths produce different
new content (the space-padded path inserts two more characters). -/
theorem C9_shortcut_toolbar_divergence (san : Str → Str) (parse : Str → Except Str Str)
    (st : EditorState) (h1 : st.selStart ≤ st.selEnd) (h2 : st.selEnd ≤ st.text.length) :
    (dispatchShortcut san parse "b" st).text ≠ ((dispatchToolbar san parse "bold" st).1).text
      ∧ (dispatchShortcut san parse "i" st).text ≠ ((dispatchToolbar san parse "italic" st).1).text
      ∧ (dispatchShortcut san parse "u" st).text ≠ ((dispatchToolbar san parse "underline" st).1).text := by
  have key : ∀ p1 s1 p2 s2 : Str, isBlockLevel p1 = false → isBlockLevel p2 = false →
      p1.length + s1.length ≠ p2.length + s2.length →
      (insertMarkup st.text st.selStart st.selEnd p1 s1 true).text
        ≠ (insertMarkup st.text st.selStart st.selEnd p2 s2 true).text := by
    intro p1 s1 p2 s2 hb1 hb2 hne hEq
    have hlen := congrArg List.length hEq
    rw [insertMarkup_text_length st.text st.selStart st.selEnd p1 s1 true h1 h2,
      insertMarkup_text_length st.text st.selStart st.selEnd p2 s2 true h1 h2,
      prependNewline_of_not_block true st.text st.selStart p1 hb1,
      prependNewline_of_not_block true st.text st.selStart p2 hb2,
      appendNewline_of_not_block true s1 p1 hb1,
      appendNewline_of_not_block true s2 p2 hb2] at hlen
    simp at hlen
    omega
  refine ⟨?_, ?_, ?_⟩
  · exact key "js".toList "sj".toList "js ".toList " sj".toList
      (by decide) (by decide) (by decide)
  · exact key "jd".toList "dj".toList "jd ".toList " dj".toList
      (by decide) (by decide) (by decide)
  · exact key "ju".toList "uj".toList "ju ".toList " uj".toList
      (by decide) (by decide) (by decide)

theorem C9_shortcut_toolbar_divergence_witness :
    (dispatchShortcut (fun v => v) (fun v => Except.ok v) "b"
        ⟨"hello".toList, 0, 5, "hello".toList, RenderResult.rendered []⟩).text
        ≠ ((dispatchToolbar (fun v => v) (fun v => Except.ok v) "bold"
        ⟨"hello".toList, 0, 5, "hello".toList, RenderResult.rendered []⟩).1).text
      ∧ (dispatchShortcut (fun v => v) (fun v => Except.ok v) "i"
        ⟨"hello".toList, 0, 5, "hello".toList, RenderResult.rendered []⟩).text
        ≠ ((dispatchToolbar (fun v => v) (fun v => Except.ok v) "italic"
        ⟨"hello".toList, 0, 5, "hello".toList, RenderResult.rendered []⟩).1).text
      ∧ (dispatchShortcut (fun v => v) (fun v => Except.ok v) "u"
        ⟨"hello".toList, 0, 5, "hello".toList, RenderResult.rendered []⟩).text
        ≠ ((dispatchToolbar (fun v => v) (fun v => Except.ok v) "underline"
        ⟨"hello".toList, 0, 5, "hello".toList, RenderResult.rendered []⟩).1).text :=
  C9_shortcut_toolbar_divergence (fun v => v) (fun v => Except.ok v)
    ⟨"hello".toList, 0, 5, "hello".toList, RenderResult.rendered []⟩
    (by decide) (by decide)

/-- C10: the horizontal-rule action inserts `"js"` and `"\n"`; `"js"` does not
match the block-level pattern, so no leading newline is ever prepended (even
mid-line) and no extra trailing newline is appended: for every buffer the
result is `before ++ "js" ++ selectedText ++ "\n" ++ after`. -/
theorem C10_horizontal_rule (san : Str → Str) (parse : Str → Except Str Str)
    (st : EditorState) :
    ((dispatchToolbar san parse "hr" st).1).text
      = st.text.take st.selStart ++ "js".toList
          ++ selectedText st.text st.selStart st.selEnd ++ "\n".toList
          ++ st.text.drop st.selEnd := by
  have hb : isBlockLevel ['j', 's'] = false := by decide
  have hpre : prependNewline true st.text st.selStart ['j', 's'] = [] :=
    prependNewline_of_not_block true st.text st.selStart ['j', 's'] hb
  have happ : appendNewline true ['\n'] ['j', 's'] = [] :=
    appendNewline_of_not_block true ['\n'] ['j', 's'] hb
  show (insertMarkup st.text st.selStart st.selEnd "js".toList "\n".toList true).text = _
  simp [insertMarkup, hpre, happ]
